import Mathlib

/-!
Verification of the gacha game core (src/game.py, class GachaGame).

Shallow embedding choices:
* The six slot symbols (pictographs in the source) become the inductive
  type `SlotSymbol` with six constructors; any six distinct tokens suffice.
* Python `datetime` values become integer timestamps in seconds;
  `timedelta(minutes=15)` is the constant 900.
* The mutable `self.player_data` dict becomes the structure `PlayerData`;
  every numeric field is `Int` because a persisted record may in
  principle hold any integer and the code never validates it.
* Each method that mutates `self` becomes a function from a `World`
  (current data plus a log of every state passed to `save_data`) to a
  new `World` paired with its returned result.  The `saves` log lets us
  state which paths perform a save and which do not.
* The random draws of `spin_gacha` and the ambient clock `datetime.now()`
  are injected as explicit arguments (the drawn rows, the time `now`).
-/

/-- One of the six slot symbols drawn by `spin_gacha`
(the source uses six pictograph strings). -/
inductive SlotSymbol where
  | slot
  | gem
  | gift
  | star
  | clover
  | target
deriving DecidableEq, Repr

/-- One row of the 3x3 spin grid: cells at indices 0, 1, 2. -/
structure Row3 where
  s0 : SlotSymbol
  s1 : SlotSymbol
  s2 : SlotSymbol
deriving DecidableEq, Repr

/-- The persisted player record (the dict held in `self.player_data`).
Timestamps are integer seconds. -/
structure PlayerData where
  balance : Int
  tokens : Int
  attempts_left : Int
  last_reset_time : Int
  total_wins : Int
  total_losses : Int
deriving DecidableEq, Repr

/-- A `GachaGame` instance together with its persistence history:
`data` is the in-memory `self.player_data`; `saves` records, most
recent first, every state handed to `save_data`. -/
structure World where
  data : PlayerData
  saves : List PlayerData
deriving DecidableEq, Repr

/-- The default record built by `load_data` when no save file exists
and by `reset_game` (lines 17-24 and 167-174 of src/game.py). -/
def defaultData (now : Int) : PlayerData :=
  { balance := 0
  , tokens := 0
  , attempts_left := 10
  , last_reset_time := now
  , total_wins := 0
  , total_losses := 0 }

/-- `load_data` (lines 12-24): if a record exists it is returned exactly
as stored, with no validation or clamping; otherwise the default record
stamped with the current time. -/
def load_data (now : Int) (stored : Option PlayerData) : PlayerData :=
  match stored with
  | some d => d
  | none => defaultData now

/-- Fifteen minutes (`timedelta(minutes=15)`) in seconds. -/
def cooldownSeconds : Int := 900

/-- `check_reset_cooldown` (lines 31-41): if 15 minutes have passed
since `last_reset_time`, restore `attempts_left` to 10, stamp
`last_reset_time` with `now`, save, and return `true`; otherwise
return `false` with nothing changed. -/
def check_reset_cooldown (now : Int) (w : World) : World × Bool :=
  if now ≥ w.data.last_reset_time + cooldownSeconds then
    let d := { w.data with attempts_left := 10, last_reset_time := now }
    ({ data := d, saves := d :: w.saves }, true)
  else
    (w, false)

/-- `get_time_until_reset` (lines 43-53): seconds remaining until the
next reset, zero once the window has elapsed. -/
def get_time_until_reset (now : Int) (d : PlayerData) : Int :=
  if now ≥ d.last_reset_time + cooldownSeconds then 0
  else d.last_reset_time + cooldownSeconds - now

/-- The win evaluation of `spin_gacha` (lines 66-79), with the three
drawn rows injected: `is_win` starts `False` and is set by each of the
four three-in-a-row checks (middle column, then each row). -/
def spinIsWin (row1 row2 row3 : Row3) : Bool :=
  let isWin := false
  let isWin := if row1.s1 = row2.s1 ∧ row2.s1 = row3.s1 then true else isWin
  let isWin := if row1.s0 = row1.s1 ∧ row1.s1 = row1.s2 then true else isWin
  let isWin := if row2.s0 = row2.s1 ∧ row2.s1 = row2.s2 then true else isWin
  let isWin := if row3.s0 = row3.s1 ∧ row3.s1 = row3.s2 then true else isWin
  isWin

/-- The four win conditions exactly as the specification words them:
the middle column (index 1) is identical across all three rows, or
row 0, row 1, or row 2 consists of three identical symbols. -/
def specWin (row1 row2 row3 : Row3) : Prop :=
  (row1.s1 = row2.s1 ∧ row2.s1 = row3.s1) ∨
  (row1.s0 = row1.s1 ∧ row1.s1 = row1.s2) ∨
  (row2.s0 = row2.s1 ∧ row2.s1 = row2.s2) ∨
  (row3.s0 = row3.s1 ∧ row3.s1 = row3.s2)

/-- The outcome dict returned by `gacha_spin`: either the "no attempts"
failure (lines 93-97), whose message carries the remaining cooldown and
whose `attempts_left` entry is the literal 0, or a completed spin
(lines 104-132) carrying the grid, the win flag, the updated balance and
attempts, and, when attempts just hit zero, the time until reset. -/
inductive SpinOutcome where
  | exhausted (timeLeft : Int) (attemptsField : Int)
  | done (row1 row2 row3 : Row3) (isWin : Bool)
      (balance : Int) (attemptsLeft : Int) (nextReset : Option Int)
deriving DecidableEq, Repr

/-- The reward-application branch of `gacha_spin` (lines 110-119):
on a win add the fixed 10000 reward and count a win, otherwise count
a loss. -/
def applySpinResult (d : PlayerData) (isWin : Bool) : PlayerData :=
  if isWin then
    { d with balance := d.balance + 10000, total_wins := d.total_wins + 1 }
  else
    { d with total_losses := d.total_losses + 1 }

/-- `gacha_spin` (lines 83-132) with the clock and the three drawn rows
injected: run the cooldown check; fail without saving when no attempts
remain; otherwise consume one attempt, apply the spin result, save, and
report the outcome. -/
def gacha_spin (now : Int) (row1 row2 row3 : Row3) (w : World) :
    World × SpinOutcome :=
  let w1 := (check_reset_cooldown now w).1
  if w1.data.attempts_left ≤ 0 then
    (w1, .exhausted (get_time_until_reset now w1.data) 0)
  else
    let isWin := spinIsWin row1 row2 row3
    let d1 := { w1.data with attempts_left := w1.data.attempts_left - 1 }
    let d2 := applySpinResult d1 isWin
    let nextReset :=
      if d2.attempts_left = 0 then some (get_time_until_reset now d2) else none
    ({ data := d2, saves := d2 :: w1.saves },
     .done row1 row2 row3 isWin d2.balance d2.attempts_left nextReset)

/-- The result dict of `buy_gacha_pack` (lines 142-147), message aside. -/
structure BuyResult where
  tokens : Int
  balance : Int
deriving DecidableEq, Repr

/-- `buy_gacha_pack` (lines 134-147): grant `5 * quantity` tokens,
save, and report the new token and balance totals.  The method itself
performs no validation of `quantity`. -/
def buy_gacha_pack (quantity : Int) (w : World) : World × BuyResult :=
  let d := { w.data with tokens := w.data.tokens + 5 * quantity }
  ({ data := d, saves := d :: w.saves },
   { tokens := d.tokens, balance := d.balance })

/-- The purchase action as exposed to the player (menu option 2 of
`main`, lines 230-241): quantities below 1 are rejected before
`buy_gacha_pack` is called, so nothing is mutated or saved; a `none`
result stands for the rejection message. -/
def doPurchase (quantity : Int) (w : World) : World × Option BuyResult :=
  if quantity < 1 then
    (w, none)
  else
    let r := buy_gacha_pack quantity w
    (r.1, some r.2)

/-- The snapshot returned by `get_player_status` (lines 156-163);
`next_reset` is `none` for the "Penuh" (full) display shown when
`attempts_left` is not below 10, and otherwise carries the remaining
seconds the source formats as minutes and seconds. -/
structure StatusResult where
  balance : Int
  tokens : Int
  attempts_left : Int
  total_wins : Int
  total_losses : Int
  next_reset : Option Int
deriving DecidableEq, Repr

/-- `get_player_status` (lines 149-163): run the cooldown check (which
may itself save), then report a read-only snapshot. -/
def get_player_status (now : Int) (w : World) : World × StatusResult :=
  let w1 := (check_reset_cooldown now w).1
  let timeLeft := get_time_until_reset now w1.data
  (w1,
   { balance := w1.data.balance
   , tokens := w1.data.tokens
   , attempts_left := w1.data.attempts_left
   , total_wins := w1.data.total_wins
   , total_losses := w1.data.total_losses
   , next_reset := if w1.data.attempts_left < 10 then some timeLeft else none })

/-- `reset_game` (lines 165-176): replace the record with the default
values stamped at the current time and save. -/
def reset_game (now : Int) (w : World) : World :=
  let d := defaultData now
  { data := d, saves := d :: w.saves }

/-- Both bounds of the attempts invariant, for a whole game instance. -/
def attemptsInRange (w : World) : Prop :=
  0 ≤ w.data.attempts_left ∧ w.data.attempts_left ≤ 10

/-- A freshly created player: the default record, nothing saved yet. -/
def freshWorld : World := { data := defaultData 0, saves := [] }

/-- A player whose attempts are exhausted two minutes into the window. -/
def tiredWorld : World :=
  { data := { defaultData 0 with attempts_left := 0 }, saves := [] }

/-- A player holding a positive balance. -/
def richWorld : World :=
  { data := { defaultData 0 with balance := 10000 }, saves := [] }

/-- A row of three identical symbols. -/
def rowAAA : Row3 := { s0 := .slot, s1 := .slot, s2 := .slot }

/-- A row of three pairwise distinct symbols. -/
def rowBCD : Row3 := { s0 := .gem, s1 := .gift, s2 := .star }

/-- C1: for every 3x3 spin grid, the `isWin` flag computed by
`spin_gacha` is true iff at least one of the four three-in-a-row
conditions holds: identical middle column, or an identical row 0,
row 1 or row 2. -/
theorem spin_isWin_iff_specWin (row1 row2 row3 : Row3) :
    spinIsWin row1 row2 row3 = true ↔ specWin row1 row2 row3 := by
  unfold spinIsWin specWin
  split_ifs <;> simp_all

/-- C2: the purchase action validates the quantity and, for every
quantity below 1, rejects the request with the game instance — player
record and save history alike — completely unchanged. -/
theorem doPurchase_rejects_invalid (w : World) (quantity : Int)
    (h : quantity < 1) : doPurchase quantity w = (w, none) := by
  unfold doPurchase
  simp [h]

/-- Witness for C2: a purchase of quantity 0 on a fresh player is
rejected, mutating nothing and saving nothing. -/
theorem doPurchase_rejects_invalid_witness :
    (0 : Int) < 1 ∧ doPurchase 0 freshWorld = (freshWorld, none) :=
  ⟨by decide, doPurchase_rejects_invalid freshWorld 0 (by decide)⟩

/-- Helper: the cooldown check when the 15-minute window has elapsed. -/
theorem check_reset_cooldown_fire (w : World) (now : Int)
    (h : now ≥ w.data.last_reset_time + cooldownSeconds) :
    check_reset_cooldown now w =
      ({ data := { w.data with attempts_left := 10, last_reset_time := now }
       , saves := { w.data with attempts_left := 10, last_reset_time := now }
           :: w.saves }, true) := by
  unfold check_reset_cooldown
  rw [if_pos h]

/-- Helper: the cooldown check when the window has not yet elapsed. -/
theorem check_reset_cooldown_skip (w : World) (now : Int)
    (h : ¬ now ≥ w.data.last_reset_time + cooldownSeconds) :
    check_reset_cooldown now w = (w, false) := by
  unfold check_reset_cooldown
  rw [if_neg h]

/-- Helper: applying a spin result never touches the attempts, token or
timestamp fields. -/
theorem applySpinResult_frame (d : PlayerData) (b : Bool) :
    (applySpinResult d b).attempts_left = d.attempts_left ∧
    (applySpinResult d b).tokens = d.tokens ∧
    (applySpinResult d b).last_reset_time = d.last_reset_time := by
  cases b <;> simp [applySpinResult]

/-- C3 counterexample: the claim that every core operation leaves the
balance no smaller fails on the explicit reset action, which restores a
player with balance 10000 to balance 0. -/
theorem reset_decreases_balance :
    ¬ (reset_game 0 richWorld).data.balance ≥ richWorld.data.balance := by
  decide

/-- C3 amended: the balance never decreases under the cooldown check,
spin, purchase and status actions, and a spin changes it only by the
fixed 10000 win reward; the explicit reset action, however, restores
the balance to 0 and so can decrease it. -/
theorem balance_monotone_except_reset (w : World) (now quantity : Int)
    (row1 row2 row3 : Row3) :
    (check_reset_cooldown now w).1.data.balance = w.data.balance ∧
    (gacha_spin now row1 row2 row3 w).1.data.balance ≥ w.data.balance ∧
    ((gacha_spin now row1 row2 row3 w).1.data.balance = w.data.balance ∨
     (gacha_spin now row1 row2 row3 w).1.data.balance = w.data.balance + 10000) ∧
    (buy_gacha_pack quantity w).1.data.balance = w.data.balance ∧
    (doPurchase quantity w).1.data.balance = w.data.balance ∧
    (get_player_status now w).1.data.balance = w.data.balance ∧
    (reset_game now w).data.balance = 0 := by
  unfold gacha_spin get_player_status doPurchase check_reset_cooldown
    buy_gacha_pack reset_game applySpinResult defaultData
  dsimp only
  split_ifs <;> simp_all

/-- C4: starting from any state whose attempts lie in [0, 10], every
core action leaves them in [0, 10] — they never go negative — and a
spin attempted with zero attempts inside the cooldown window fails
without mutating anything. -/
theorem attempts_left_in_range (w : World) (now quantity : Int)
    (row1 row2 row3 : Row3)
    (h0 : 0 ≤ w.data.attempts_left) (h1 : w.data.attempts_left ≤ 10) :
    attemptsInRange (check_reset_cooldown now w).1 ∧
    attemptsInRange (gacha_spin now row1 row2 row3 w).1 ∧
    attemptsInRange (buy_gacha_pack quantity w).1 ∧
    attemptsInRange (doPurchase quantity w).1 ∧
    attemptsInRange (get_player_status now w).1 ∧
    attemptsInRange (reset_game now w) ∧
    (w.data.attempts_left = 0 →
     now < w.data.last_reset_time + cooldownSeconds →
     gacha_spin now row1 row2 row3 w =
       (w, .exhausted (get_time_until_reset now w.data) 0)) := by
  have hr : attemptsInRange (check_reset_cooldown now w).1 := by
    by_cases hc : now ≥ w.data.last_reset_time + cooldownSeconds
    · rw [check_reset_cooldown_fire w now hc]
      exact ⟨by norm_num, by norm_num⟩
    · rw [check_reset_cooldown_skip w now hc]
      exact ⟨h0, h1⟩
  refine ⟨hr, ?_, ⟨h0, h1⟩, ?_, hr, ?_, ?_⟩
  · unfold attemptsInRange at hr ⊢
    unfold gacha_spin applySpinResult
    dsimp only
    split_ifs <;> dsimp only <;> omega
  · unfold doPurchase
    split_ifs
    · exact ⟨h0, h1⟩
    · exact ⟨h0, h1⟩
  · unfold attemptsInRange reset_game defaultData
    dsimp only
    omega
  · intro hz hc
    have hskip := check_reset_cooldown_skip w now (by omega)
    unfold gacha_spin
    rw [hskip]
    dsimp only
    rw [if_pos (by omega)]

/-- Witness for C4 at a fresh player: the bounds hold before and after
every action. -/
theorem attempts_left_in_range_witness :
    (0 ≤ freshWorld.data.attempts_left ∧ freshWorld.data.attempts_left ≤ 10) ∧
    (attemptsInRange (check_reset_cooldown 0 freshWorld).1 ∧
     attemptsInRange (gacha_spin 0 rowAAA rowAAA rowAAA freshWorld).1 ∧
     attemptsInRange (buy_gacha_pack 1 freshWorld).1 ∧
     attemptsInRange (doPurchase 1 freshWorld).1 ∧
     attemptsInRange (get_player_status 0 freshWorld).1 ∧
     attemptsInRange (reset_game 0 freshWorld) ∧
     (freshWorld.data.attempts_left = 0 →
      0 < freshWorld.data.last_reset_time + cooldownSeconds →
      gacha_spin 0 rowAAA rowAAA rowAAA freshWorld =
        (freshWorld, .exhausted (get_time_until_reset 0 freshWorld.data) 0))) :=
  ⟨⟨by decide, by decide⟩,
   attempts_left_in_range freshWorld 0 1 rowAAA rowAAA rowAAA
     (by decide) (by decide)⟩

/-- C5: the cooldown check with the clock injected: at or after the
15-minute boundary it restores the attempts to 10, stamps the reset
time with the current instant, saves that state and signals true;
before the boundary it changes nothing and signals false. -/
theorem check_reset_cooldown_behavior (w : World) (now : Int) :
    (now ≥ w.data.last_reset_time + cooldownSeconds →
      check_reset_cooldown now w =
        ({ data := { w.data with attempts_left := 10, last_reset_time := now }
         , saves := { w.data with attempts_left := 10, last_reset_time := now }
             :: w.saves }, true)) ∧
    (now < w.data.last_reset_time + cooldownSeconds →
      check_reset_cooldown now w = (w, false)) :=
  ⟨fun h => check_reset_cooldown_fire w now h,
   fun h => check_reset_cooldown_skip w now (by omega)⟩

/-- Witness for C5: a fresh player checked 1000 seconds after its reset
time gets the full reset, saved. -/
theorem check_reset_cooldown_behavior_witness :
    (1000 : Int) ≥ freshWorld.data.last_reset_time + cooldownSeconds ∧
    check_reset_cooldown 1000 freshWorld =
      ({ data := { freshWorld.data with attempts_left := 10, last_reset_time := 1000 }
       , saves := { freshWorld.data with attempts_left := 10, last_reset_time := 1000 }
           :: freshWorld.saves }, true) :=
  ⟨by decide, (check_reset_cooldown_behavior freshWorld 1000).1 (by decide)⟩

/-- C6: whenever the attempts are still not positive after the cooldown
check, the spin action returns the structured exhausted outcome carrying
the time until reset, and the whole instance — record and save history —
is exactly as before: no field mutated, no save performed (the cooldown
check cannot have fired on this path, so not even its save occurs). -/
theorem spin_exhausted_no_mutation (w : World) (now : Int)
    (row1 row2 row3 : Row3)
    (h : (check_reset_cooldown now w).1.data.attempts_left ≤ 0) :
    gacha_spin now row1 row2 row3 w =
      (w, .exhausted (get_time_until_reset now w.data) 0) ∧
    (check_reset_cooldown now w).1 = w := by
  by_cases hc : now ≥ w.data.last_reset_time + cooldownSeconds
  · rw [check_reset_cooldown_fire w now hc] at h
    simp at h
  · have hskip := check_reset_cooldown_skip w now hc
    rw [hskip] at h
    refine ⟨?_, by rw [hskip]⟩
    unfold gacha_spin
    rw [hskip]
    dsimp only
    rw [if_pos h]

/-- Witness for C6, the Scenario 3 instance: attempts exhausted two
minutes into the window, so the spin fails carrying 780 seconds
(13 minutes) until reset, and nothing changes. -/
theorem spin_exhausted_no_mutation_witness :
    (check_reset_cooldown 120 tiredWorld).1.data.attempts_left ≤ 0 ∧
    (gacha_spin 120 rowAAA rowAAA rowAAA tiredWorld =
       (tiredWorld, .exhausted (get_time_until_reset 120 tiredWorld.data) 0) ∧
     (check_reset_cooldown 120 tiredWorld).1 = tiredWorld) ∧
    get_time_until_reset 120 tiredWorld.data = 780 :=
  ⟨by decide,
   spin_exhausted_no_mutation tiredWorld 120 rowAAA rowAAA rowAAA (by decide),
   by decide⟩

/-- C7: applying a spin result executes exactly one branch: a win adds
exactly 10000 to the balance and one to the win counter, leaving the
losses alone; a loss adds one to the loss counter, leaving balance and
wins alone. -/
theorem applySpinResult_branches (d : PlayerData) (isWin : Bool) :
    (isWin = true →
      (applySpinResult d isWin).balance = d.balance + 10000 ∧
      (applySpinResult d isWin).total_wins = d.total_wins + 1 ∧
      (applySpinResult d isWin).total_losses = d.total_losses) ∧
    (isWin = false →
      (applySpinResult d isWin).total_losses = d.total_losses + 1 ∧
      (applySpinResult d isWin).balance = d.balance ∧
      (applySpinResult d isWin).total_wins = d.total_wins) := by
  cases isWin <;> simp [applySpinResult]

/-- Witness for C7, including the Scenario 1 spin: a fresh player whose
first row comes up three identical symbols wins exactly 10000, one win,
and drops to 9 attempts. -/
theorem applySpinResult_branches_witness :
    true = true ∧
    ((applySpinResult (defaultData 0) true).balance =
       (defaultData 0).balance + 10000 ∧
     (applySpinResult (defaultData 0) true).total_wins =
       (defaultData 0).total_wins + 1 ∧
     (applySpinResult (defaultData 0) true).total_losses =
       (defaultData 0).total_losses) ∧
    (gacha_spin 0 rowAAA rowBCD rowBCD freshWorld).1.data.balance = 10000 ∧
    (gacha_spin 0 rowAAA rowBCD rowBCD freshWorld).1.data.total_wins = 1 ∧
    (gacha_spin 0 rowAAA rowBCD rowBCD freshWorld).1.data.attempts_left = 9 :=
  ⟨rfl, (applySpinResult_branches (defaultData 0) true).1 rfl,
   by decide, by decide, by decide⟩

/-- C8: a purchase of any quantity at least 1 adds exactly 5 times that
quantity to the tokens, leaves every other field of the record
unchanged, and reports the new token total with the untouched balance. -/
theorem buy_gacha_pack_adds_tokens (w : World) (quantity : Int)
    (h : 1 ≤ quantity) :
    (buy_gacha_pack quantity w).1.data.tokens = w.data.tokens + 5 * quantity ∧
    (buy_gacha_pack quantity w).1.data.balance = w.data.balance ∧
    (buy_gacha_pack quantity w).1.data.attempts_left = w.data.attempts_left ∧
    (buy_gacha_pack quantity w).1.data.last_reset_time = w.data.last_reset_time ∧
    (buy_gacha_pack quantity w).1.data.total_wins = w.data.total_wins ∧
    (buy_gacha_pack quantity w).1.data.total_losses = w.data.total_losses ∧
    (buy_gacha_pack quantity w).2 =
      { tokens := w.data.tokens + 5 * quantity, balance := w.data.balance } := by
  simp [buy_gacha_pack]

/-- Witness for C8, Scenario 4: buying 3 packs on a fresh player yields
15 tokens with the balance untouched. -/
theorem buy_gacha_pack_adds_tokens_witness :
    (1 : Int) ≤ 3 ∧
    ((buy_gacha_pack 3 freshWorld).1.data.tokens =
       freshWorld.data.tokens + 5 * 3 ∧
     (buy_gacha_pack 3 freshWorld).1.data.balance = freshWorld.data.balance ∧
     (buy_gacha_pack 3 freshWorld).1.data.attempts_left =
       freshWorld.data.attempts_left ∧
     (buy_gacha_pack 3 freshWorld).1.data.last_reset_time =
       freshWorld.data.last_reset_time ∧
     (buy_gacha_pack 3 freshWorld).1.data.total_wins =
       freshWorld.data.total_wins ∧
     (buy_gacha_pack 3 freshWorld).1.data.total_losses =
       freshWorld.data.total_losses ∧
     (buy_gacha_pack 3 freshWorld).2 =
       { tokens := freshWorld.data.tokens + 5 * 3
       , balance := freshWorld.data.balance }) ∧
    (buy_gacha_pack 3 freshWorld).1.data.tokens = 15 :=
  ⟨by decide, buy_gacha_pack_adds_tokens freshWorld 3 (by decide), by decide⟩

/-- C9: the cooldown reset is idempotent within an instant and
monotonic: any check strictly before the 15-minute boundary returns the
instance unchanged (so repetition changes nothing), and a check at or
after the boundary restores the attempts to 10 and advances the reset
time to the check time exactly once — an immediate second check at the
same instant mutates nothing. -/
theorem cooldown_idempotent_monotone (w : World) (now : Int) :
    (now < w.data.last_reset_time + cooldownSeconds →
      check_reset_cooldown now w = (w, false)) ∧
    (now ≥ w.data.last_reset_time + cooldownSeconds →
      (check_reset_cooldown now w).1.data.attempts_left = 10 ∧
      (check_reset_cooldown now w).1.data.last_reset_time = now ∧
      (check_reset_cooldown now w).2 = true ∧
      check_reset_cooldown now (check_reset_cooldown now w).1 =
        ((check_reset_cooldown now w).1, false)) := by
  constructor
  · intro h
    exact check_reset_cooldown_skip w now (by omega)
  · intro h
    rw [check_reset_cooldown_fire w now h]
    refine ⟨rfl, rfl, rfl, ?_⟩
    exact check_reset_cooldown_skip _ now (by
      dsimp only
      unfold cooldownSeconds
      omega)

/-- Witness for C9: a player whose window elapsed long ago is reset
exactly once; the immediate second check is a no-op. -/
theorem cooldown_idempotent_monotone_witness :
    (2000 : Int) ≥ tiredWorld.data.last_reset_time + cooldownSeconds ∧
    ((check_reset_cooldown 2000 tiredWorld).1.data.attempts_left = 10 ∧
     (check_reset_cooldown 2000 tiredWorld).1.data.last_reset_time = 2000 ∧
     (check_reset_cooldown 2000 tiredWorld).2 = true ∧
     check_reset_cooldown 2000 (check_reset_cooldown 2000 tiredWorld).1 =
       ((check_reset_cooldown 2000 tiredWorld).1, false)) :=
  ⟨by decide, (cooldown_idempotent_monotone tiredWorld 2000).2 (by decide)⟩

/-- C10: loading performs no validation or clamping: every existing
record — including one with attempts outside [0, 10] or negative
counters — is adopted exactly as stored, and the default record
(balance 0, tokens 0, attempts 10, wins 0, losses 0, reset time now)
arises only when no record exists. -/
theorem load_data_no_validation (d : PlayerData) (now : Int) :
    load_data now (some d) = d ∧
    load_data now none = defaultData now ∧
    defaultData now =
      { balance := 0, tokens := 0, attempts_left := 10
      , last_reset_time := now, total_wins := 0, total_losses := 0 } :=
  ⟨rfl, rfl, rfl⟩
